import Mathlib

/-!
Shallow embedding of the project-approval workflow and payment-driven
status derivation of a multi-tenant construction-project management
backend, together with proofs of the behavioural claims about it.

Conventions of the embedding:
* Django model instances become Lean structures; foreign keys become the
  referenced structure (or an `Option` of it when nullable).
* Decimal amounts become `Rat` (the source converts amounts through
  `Decimal(str(p.amount))`, which is exact; the Decimal divisions and the
  final float conversions are monotone roundings, so the order comparisons
  against the representable constants 5, 91 and 100 that the code performs
  agree with exact rational arithmetic on the inputs considered here).
* Calendar dates and timestamps become `Int` day numbers; the
  6-months-ago cutoff used by the status deriver is `today - 180`.
* A view handler becomes a pure function from its inputs (rule table,
  acting user, project, request payload, current time) to an
  `ActionResult`: either the mutated project plus the audit entry it
  logs, a deletion marker, or the error kind it responds with
  (HTTP 400 state messages are `InvalidState`, missing-field 400s are
  `ValidationError`, 403 is `PermissionDenied`, 404 is `NotFound`).
-/

/-- Role model: a named role carrying a set of permission codes
(`Role.permissions` plus `Permission.code` flattened to the codes,
which is all `User.has_permission` consults). -/
structure Role where
  name : String
  permission_codes : List String
deriving Repr, DecidableEq

/-- User model, restricted to the fields the workflow code reads. -/
structure User where
  is_superuser : Bool
  is_staff : Bool
  role : Option Role
  tenant : Option Nat
deriving Repr, DecidableEq

/-- User.has_permission from authentication/models.py: superusers hold
every permission; otherwise membership of the code in the role
permission set; no role means no permission. -/
def User.has_permission (u : User) (permission_code : String) : Bool :=
  if u.is_superuser then true
  else
    match u.role with
    | some r => r.permission_codes.contains permission_code
    | none => false

/-- WorkflowStage model from authentication/models.py. -/
structure WorkflowStage where
  code : String
  name : String
  order : Nat
  is_active : Bool
deriving Repr, DecidableEq

/-- WorkflowRule model from authentication/models.py: unique per
(stage, action); `required_permission` is a non-nullable foreign key,
embedded as the permission code. -/
structure WorkflowRule where
  stage : WorkflowStage
  action : String
  required_permission : String
  allowed_roles : List Role
  is_active : Bool
deriving Repr, DecidableEq

/-- check_workflow_permission from authentication/utils.py. A superuser
is always allowed. Otherwise the single active rule for (stage, action)
is looked up; absence of such a rule yields false. With a rule, the
user passes if they have a role and hold the required permission, or if
the rule has a non-empty allow-list containing the user role. -/
def check_workflow_permission (rules : List WorkflowRule) (user : User)
    (stage : WorkflowStage) (action : String) : Bool :=
  if user.is_superuser then true
  else
    match rules.find? (fun r =>
        decide (r.stage = stage) && decide (r.action = action) && r.is_active) with
    | none => false
    | some rule =>
      if user.role.isSome && user.has_permission rule.required_permission then
        true
      else if !rule.allowed_roles.isEmpty &&
          (match user.role with
           | some r => rule.allowed_roles.contains r
           | none => false) then
        true
      else
        false

/-- is_company_admin from authentication/utils.py. -/
def is_company_admin (user : User) : Bool :=
  if user.is_superuser then false
  else
    match user.role with
    | some r => decide (r.name = "company_super_admin")
    | none => false

/-- is_staff_user from authentication/utils.py. -/
def is_staff_user (user : User) : Bool :=
  if user.is_superuser then false
  else
    match user.role with
    | some r => decide (r.name = "staff_user")
    | none => false

/-- is_manager from authentication/utils.py. -/
def is_manager (user : User) : Bool :=
  if user.is_superuser then false
  else
    match user.role with
    | some r => decide (r.name = "Manager")
    | none => false

/-- Project model from projects/models.py, restricted to the workflow
and status fields the handlers touch. `status` is the operational
(payment-derived) axis; `approval_status` is the human-sign-off axis. -/
structure Project where
  approval_status : String
  current_stage : Option WorkflowStage
  approval_notes : String
  last_approved_by : Option User
  last_approved_at : Option Int
  delete_requested_by : Option User
  delete_requested_at : Option Int
  delete_reason : String
  delete_approved_by : Option User
  delete_approved_at : Option Int
  status : String
deriving Repr, DecidableEq

/-- can_submit_project from authentication/utils.py: superusers, company
admins and managers never submit; an ordinary user may submit a draft
project even without a current stage, and otherwise is checked against
the workflow rule for (current stage, submit). -/
def can_submit_project (rules : List WorkflowRule) (user : User)
    (project : Project) : Bool :=
  if user.is_superuser then false
  else if is_company_admin user then false
  else if is_manager user then false
  else if decide (project.approval_status = "draft") then true
  else
    match project.current_stage with
    | some stage => check_workflow_permission rules user stage "submit"
    | none => false

/-- Error taxonomy of the handlers: InvalidState for 400 responses about
the subject state, ValidationError for missing mandatory request
fields, PermissionDenied for 403, NotFound for 404, ServerError for the
500 produced when applying a pending change raises. -/
inductive WorkflowError
  | InvalidState
  | PermissionDenied
  | ValidationError
  | NotFound
  | ServerError
deriving Repr, DecidableEq

/-- AuditLog entry as written through log_audit, restricted to the
fields the handlers populate: the action keyword, the description
string, and the structured before/after changes (field name paired with
an optional value, since the source stores None for a missing stage). -/
structure AuditEntry where
  action : String
  description : String
  changes_before : List (String × Option String)
  changes_after : List (String × Option String)
deriving Repr, DecidableEq

/-- Outcome of a project workflow handler: success with the mutated
project and the audit entry logged, deletion of the project with the
audit entry logged just before it, or an error response leaving the
project untouched and logging nothing. -/
inductive ActionResult
  | ok (project : Project) (audit : AuditEntry)
  | deleted (audit : AuditEntry)
  | err (e : WorkflowError)
deriving Repr, DecidableEq

/-- ProjectViewSet.submit from projects/views.py: a project with no
current stage is rejected (400), then the workflow permission for
(current stage, submit) is checked (403), then approval_status becomes
pending and a submit audit entry is logged. The handler never consults
can_submit_project. -/
def submit (rules : List WorkflowRule) (user : User) (project : Project) :
    ActionResult :=
  match project.current_stage with
  | none => .err .InvalidState
  | some stage =>
    if !check_workflow_permission rules user stage "submit" then
      .err .PermissionDenied
    else
      .ok { project with approval_status := "pending" }
        { action := "submit"
          description := "Submitted project for approval"
          changes_before := []
          changes_after := [] }

/-- ProjectViewSet.approve from projects/views.py: requires a current
stage (400), then the workflow permission for (current stage, approve)
(403); no check of the prior approval_status is made. On success it
sets approval_status to approved, records approver and time, stores the
notes, and logs an audit entry whose changes record the before value as
the literal pending and the after value as approved. -/
def approve (rules : List WorkflowRule) (user : User) (project : Project)
    (notes : String) (now : Int) : ActionResult :=
  match project.current_stage with
  | none => .err .InvalidState
  | some stage =>
    if !check_workflow_permission rules user stage "approve" then
      .err .PermissionDenied
    else
      .ok { project with
              approval_status := "approved"
              last_approved_by := some user
              last_approved_at := some now
              approval_notes := notes }
        { action := "approve"
          description := "Approved project"
          changes_before := [("approval_status", some "pending")]
          changes_after := [("approval_status", some "approved")] }

/-- ProjectViewSet.reject from projects/views.py: empty notes are
rejected first (400), then a missing current stage (400), then the
workflow permission for (current stage, reject) (403). On success it
sets approval_status to rejected, records reviewer and time, stores the
notes, and logs an audit entry. -/
def reject (rules : List WorkflowRule) (user : User) (project : Project)
    (notes : String) (now : Int) : ActionResult :=
  if decide (notes = "") then .err .ValidationError
  else
    match project.current_stage with
    | none => .err .InvalidState
    | some stage =>
      if !check_workflow_permission rules user stage "reject" then
        .err .PermissionDenied
      else
        .ok { project with
                approval_status := "rejected"
                last_approved_by := some user
                last_approved_at := some now
                approval_notes := notes }
          { action := "reject"
            description := "Rejected project: " ++ notes
            changes_before := [("approval_status", some "pending")]
            changes_after := [("approval_status", some "rejected")] }

/-- ProjectViewSet.request_delete from projects/views.py: an empty
reason is rejected first (400), then a missing current stage (400),
then the workflow permission for (current stage, delete_request) (403).
On success it sets approval_status to delete_requested and records
requester, time and reason. -/
def request_delete (rules : List WorkflowRule) (user : User)
    (project : Project) (reason : String) (now : Int) : ActionResult :=
  if decide (reason = "") then .err .ValidationError
  else
    match project.current_stage with
    | none => .err .InvalidState
    | some stage =>
      if !check_workflow_permission rules user stage "delete_request" then
        .err .PermissionDenied
      else
        .ok { project with
                approval_status := "delete_requested"
                delete_requested_by := some user
                delete_requested_at := some now
                delete_reason := reason }
          { action := "delete_request"
            description := "Requested to delete project: " ++ reason
            changes_before := []
            changes_after := [] }

/-- ProjectViewSet.approve_delete from projects/views.py: the very
first check is that approval_status equals delete_requested (400 when
it does not), before the current-stage check (400) and before the
workflow permission check for (current stage, delete_approve) (403).
On success it records approver and time, logs the audit entry, and then
hard-deletes the project. -/
def approve_delete (rules : List WorkflowRule) (user : User)
    (project : Project) (_now : Int) : ActionResult :=
  if decide (project.approval_status ≠ "delete_requested") then
    .err .InvalidState
  else
    match project.current_stage with
    | none => .err .InvalidState
    | some stage =>
      if !check_workflow_permission rules user stage "delete_approve" then
        .err .PermissionDenied
      else
        .deleted
          { action := "delete_approve"
            description := "Approved deletion of project"
            changes_before := []
            changes_after := [] }

/-- ProjectViewSet.move_to_stage from projects/views.py: a missing or
empty stage_code is rejected (400), then non-staff users are rejected
(403), then the code is resolved against the active stages of the
catalog (404 when absent). On success the project moves to the resolved
stage and approval_status is reset to draft. The request payload is an
`Option String` because the source reads stage_code with
request.data.get, and the falsiness test there catches both a missing
key and an empty string. -/
def move_to_stage (stages : List WorkflowStage) (user : User)
    (project : Project) (stage_code : Option String) : ActionResult :=
  match stage_code with
  | none => .err .ValidationError
  | some code =>
    if decide (code = "") then .err .ValidationError
    else if !user.is_staff then .err .PermissionDenied
    else
      match stages.find? (fun s => decide (s.code = code) && s.is_active) with
      | none => .err .NotFound
      | some new_stage =>
        .ok { project with
                current_stage := some new_stage
                approval_status := "draft" }
          { action := "edit"
            description :=
              "Moved project from " ++
                (match project.current_stage with
                 | some old => old.code
                 | none => "None") ++
                " to " ++ new_stage.code
            changes_before :=
              [("stage",
                (match project.current_stage with
                 | some old => some old.code
                 | none => none))]
            changes_after := [("stage", some new_stage.code)] }

/-- Contract model from projects/models.py, restricted to the fields
the status deriver reads. -/
structure Contract where
  total_project_value : Rat
  contract_date : Option Int
deriving Repr, DecidableEq

/-- Payment model from projects/models.py, restricted to the fields the
status deriver reads; (date, created_at) is the ordering key of the
queryset the deriver walks. -/
structure Payment where
  amount : Rat
  date : Int
  created_at : Int
  description : String
deriving Repr, DecidableEq

/-- Sum of the payment amounts, as computed in
calculate_status_from_payments via sum of Decimal(str(p.amount)). -/
def totalPaid (payments : List Payment) : Rat :=
  payments.foldl (fun acc p => acc + p.amount) 0

/-- Total contract value read by the status deriver: the
total_project_value of the contract when the project has one, and the
Decimal zero default otherwise. -/
def contractValue : Option Contract → Rat
  | some c => c.total_project_value
  | none => 0

/-- Completion percentage as computed in
calculate_status_from_payments: total_paid over total_contract_value
times 100 when the total is positive, and the 0 initialisation
otherwise. -/
def completionPercentage (total_contract_value total_paid : Rat) : Rat :=
  if decide (0 < total_contract_value) then
    total_paid / total_contract_value * 100
  else 0

/-- Test of the suspended rule of calculate_status_from_payments: the
last payment of the (date, created_at)-ordered ledger lies more than
180 days before today. The None arm mirrors the `if last_payment` guard
of the source. -/
def lastPaymentStale (payments : List Payment) (today : Int) : Bool :=
  match payments.getLast? with
  | some lp => decide (lp.date < today - 180)
  | none => false

/-- Project.calculate_status_from_payments from projects/models.py, as
a pure function of the contract (None when the project has none), the
payment ledger ordered by (date, created_at) as the source queryset
orders it, and the current date. The source returns not_started both
when a contract with a date exists and when it does not, so the
zero-payment case collapses to a single not_started. The percentage
comparisons are exact rational counterparts of the Decimal-then-float
arithmetic of the source. -/
def calculate_status_from_payments (contract : Option Contract)
    (payments : List Payment) (today : Int) : String :=
  let total_contract_value := contractValue contract
  if decide (payments.length = 0) then "not_started"
  else
    let total_paid := totalPaid payments
    let completion_percentage := completionPercentage total_contract_value total_paid
    if decide (100 ≤ completion_percentage) then "completed"
    else if decide (91 ≤ completion_percentage) then "handover_stage"
    else if decide (0 < total_contract_value) &&
        decide ((total_contract_value - total_paid) / total_contract_value * 100 < 5) &&
        decide (completion_percentage < 91) then
      "pending_financial_closure"
    else if lastPaymentStale payments today &&
        decide (completion_percentage < 91) then
      "temporarily_suspended"
    else if decide (payments.length = 1) then "execution_started"
    else if decide (1 < payments.length) then "under_execution"
    else "not_started"

/-- Project.update_status_from_payments from projects/models.py: the
new status is computed, and the row is written (and the in-memory
status refreshed) only when it differs from the stored one; the
returned Bool is the return value of the source method, true exactly
when a write happened. -/
def update_status_from_payments (project : Project)
    (contract : Option Contract) (payments : List Payment) (today : Int) :
    Project × Bool :=
  let new_status := calculate_status_from_payments contract payments today
  if decide (project.status ≠ new_status) then
    ({ project with status := new_status }, true)
  else
    (project, false)

/-- PendingChange model from authentication/models.py, restricted to
the fields the resolution handlers touch. -/
structure PendingChange where
  tenant : Nat
  action : String
  status : String
  reviewed_by : Option User
  reviewed_at : Option Int
  review_notes : String
deriving Repr, DecidableEq

/-- Outcome of a pending-change resolution handler: the updated change
together with whether the underlying subject was mutated, or an error
leaving both the change and the subject untouched. -/
inductive PendingResult
  | ok (change : PendingChange) (subject_mutated : Bool)
  | err (e : WorkflowError)
deriving Repr, DecidableEq

/-- PendingChangeViewSet.approve from authentication/views.py: a
non-superuser must be a company admin or a manager (403) and must
belong to the same tenant as the change (403); only then is the change
required to still be pending (400). The subsequent try-block applies
the proposed data to the real subject through the model registry; its
database effects are external to this embedding and are summarised by
`apply_ok` (false when the block raises, producing the 500 response and
leaving the change row pending). On success the change is marked
approved with reviewer and time. -/
def pending_change_approve (user : User) (change : PendingChange)
    (apply_ok : Bool) (now : Int) : PendingResult :=
  if !user.is_superuser && !(is_company_admin user || is_manager user) then
    .err .PermissionDenied
  else if !user.is_superuser && decide (some change.tenant ≠ user.tenant) then
    .err .PermissionDenied
  else if decide (change.status ≠ "pending") then .err .InvalidState
  else if apply_ok then
    .ok { change with
            status := "approved"
            reviewed_by := some user
            reviewed_at := some now }
      true
  else .err .ServerError

/-- PendingChangeViewSet.reject from authentication/views.py: the same
permission and tenant gates as approve, then the same pending-status
check; on success the change is marked rejected with reviewer, time and
notes, and the subject is never touched. -/
def pending_change_reject (user : User) (change : PendingChange)
    (review_notes : String) (now : Int) : PendingResult :=
  if !user.is_superuser && !(is_company_admin user || is_manager user) then
    .err .PermissionDenied
  else if !user.is_superuser && decide (some change.tenant ≠ user.tenant) then
    .err .PermissionDenied
  else if decide (change.status ≠ "pending") then .err .InvalidState
  else
    .ok { change with
            status := "rejected"
            reviewed_by := some user
            reviewed_at := some now
            review_notes := review_notes }
      false

/-! Concrete sample data used to instantiate the theorems below. -/

/-- Sample active workflow stage. -/
def sampleStage : WorkflowStage :=
  { code := "stage_1", name := "Stage 1", order := 1, is_active := true }

/-- Sample inactive workflow stage. -/
def inactiveStage : WorkflowStage :=
  { code := "stage_9", name := "Stage 9", order := 9, is_active := false }

/-- Sample platform superuser. -/
def sampleSuperuser : User :=
  { is_superuser := true, is_staff := true, role := none, tenant := none }

/-- Sample role named staff_user with one permission code. -/
def staffRole : Role :=
  { name := "staff_user", permission_codes := ["project.submit"] }

/-- Sample ordinary (non-superuser, non-admin, non-manager) user. -/
def ordinaryUser : User :=
  { is_superuser := false, is_staff := false, role := some staffRole,
    tenant := some 1 }

/-- Sample draft project sitting in sampleStage. -/
def sampleProject : Project :=
  { approval_status := "draft", current_stage := some sampleStage,
    approval_notes := "", last_approved_by := none, last_approved_at := none,
    delete_requested_by := none, delete_requested_at := none,
    delete_reason := "", delete_approved_by := none,
    delete_approved_at := none, status := "not_started" }

/-- Sample draft project with no current stage. -/
def draftNoStageProject : Project :=
  { sampleProject with current_stage := none }

/-- Sample project whose deletion has been requested. -/
def deleteRequestedProject : Project :=
  { sampleProject with approval_status := "delete_requested" }

/-! Claims. -/

/-- C1: for every rule table, actor (superusers included) and project,
calling approve_delete while the approval status is not
delete_requested yields InvalidState; the state precondition is the
first check of the handler, so the caller never sees PermissionDenied
in that situation. -/
theorem approve_delete_requires_delete_requested
    (rules : List WorkflowRule) (user : User) (project : Project) (now : Int)
    (h : project.approval_status ≠ "delete_requested") :
    approve_delete rules user project now = .err .InvalidState := by
  unfold approve_delete
  simp [h]

/-- Witness for C1: a superuser calling approve_delete on a draft
project receives InvalidState. -/
theorem approve_delete_requires_delete_requested_witness :
    approve_delete [] sampleSuperuser sampleProject 0 = .err .InvalidState :=
  approve_delete_requires_delete_requested [] sampleSuperuser sampleProject 0
    (by decide)

/-- C4: when no active workflow rule exists for (stage, action), the
permission check returns exactly the superuser flag of the actor:
false for every non-superuser whatever their role, true for every
superuser. -/
theorem check_workflow_permission_no_rule
    (rules : List WorkflowRule) (user : User) (stage : WorkflowStage)
    (action : String)
    (h : ∀ r ∈ rules, ¬(r.stage = stage ∧ r.action = action ∧ r.is_active = true)) :
    check_workflow_permission rules user stage action = user.is_superuser := by
  unfold check_workflow_permission
  have hfind : rules.find? (fun r =>
      decide (r.stage = stage) && decide (r.action = action) && r.is_active)
      = none := by
    rw [List.find?_eq_none]
    intro r hr
    simp only [Bool.and_eq_true, decide_eq_true_eq, not_and]
    intro h12 h3
    exact h r hr ⟨h12.1, h12.2, h3⟩
  rw [hfind]
  cases hsu : user.is_superuser <;> simp [hsu]

/-- Witness for C4: with an empty rule table, the check yields the
superuser flag both for a superuser and for an ordinary user. -/
theorem check_workflow_permission_no_rule_witness :
    check_workflow_permission [] sampleSuperuser sampleStage "approve"
      = sampleSuperuser.is_superuser ∧
    check_workflow_permission [] ordinaryUser sampleStage "approve"
      = ordinaryUser.is_superuser :=
  ⟨check_workflow_permission_no_rule [] sampleSuperuser sampleStage "approve"
      (by simp),
   check_workflow_permission_no_rule [] ordinaryUser sampleStage "approve"
      (by simp)⟩

/-- C5: for every rule table, actor and project, calling reject with
empty notes yields ValidationError; the notes check is the first check
of the handler, so even an actor without the reject capability never
sees PermissionDenied, and the project is untouched (an error result
carries no mutated project). -/
theorem reject_empty_notes_validation
    (rules : List WorkflowRule) (user : User) (project : Project) (now : Int) :
    reject rules user project "" now = .err .ValidationError := by
  unfold reject
  simp

/-- C7: recomputing the payment-derived status a second time on the
same ledger is a no-op (same stored project, no write), and a run
reports a write exactly when the stored status differs from the newly
computed one. -/
theorem update_status_from_payments_idempotent
    (project : Project) (contract : Option Contract)
    (payments : List Payment) (today : Int) :
    update_status_from_payments
        (update_status_from_payments project contract payments today).1
        contract payments today
      = ((update_status_from_payments project contract payments today).1, false)
    ∧ ((update_status_from_payments project contract payments today).2 = true ↔
        project.status ≠ calculate_status_from_payments contract payments today) := by
  unfold update_status_from_payments
  by_cases h : project.status = calculate_status_from_payments contract payments today
  · simp [h]
  · simp [h]

/-- C10: approve checks no precondition on the prior approval status:
for every project carrying a current stage and every actor passing the
workflow permission check for (stage, approve), the call succeeds,
the approval status becomes approved, and the logged audit entry hard
codes the before value as pending regardless of the actual prior
status. -/
theorem approve_ignores_prior_status
    (rules : List WorkflowRule) (user : User) (project : Project)
    (notes : String) (now : Int) (stage : WorkflowStage)
    (hstage : project.current_stage = some stage)
    (hperm : check_workflow_permission rules user stage "approve" = true) :
    approve rules user project notes now =
      .ok { project with
              approval_status := "approved"
              last_approved_by := some user
              last_approved_at := some now
              approval_notes := notes }
        { action := "approve"
          description := "Approved project"
          changes_before := [("approval_status", some "pending")]
          changes_after := [("approval_status", some "approved")] } := by
  unfold approve
  rw [hstage]
  simp [hperm]

/-- Witness for C10: a superuser approving a project whose prior
approval status is delete_requested succeeds, and the audit entry still
claims the before value was pending. -/
theorem approve_ignores_prior_status_witness :
    approve [] sampleSuperuser deleteRequestedProject "ok" 7 =
      .ok { deleteRequestedProject with
              approval_status := "approved"
              last_approved_by := some sampleSuperuser
              last_approved_at := some 7
              approval_notes := "ok" }
        { action := "approve"
          description := "Approved project"
          changes_before := [("approval_status", some "pending")]
          changes_after := [("approval_status", some "approved")] } :=
  approve_ignores_prior_status [] sampleSuperuser deleteRequestedProject
    "ok" 7 sampleStage rfl (by decide)

/-- C9: resolving a pending change that is no longer pending is
rejected: for an actor passing the permission and tenant gates (a
superuser, or a company admin or manager of the tenant of the change),
both approve and reject yield InvalidState, whatever the outcome the
subject application would have had, and an error result leaves the
change row and the subject untouched. -/
theorem pending_change_resolve_requires_pending
    (user : User) (change : PendingChange) (apply_ok : Bool)
    (notes : String) (now : Int)
    (hperm : user.is_superuser = true ∨
      ((is_company_admin user || is_manager user) = true ∧
        user.tenant = some change.tenant))
    (hstatus : change.status ≠ "pending") :
    pending_change_approve user change apply_ok now = .err .InvalidState ∧
    pending_change_reject user change notes now = .err .InvalidState := by
  unfold pending_change_approve pending_change_reject
  rcases hperm with hsu | ⟨hrole, htenant⟩
  · simp [hsu, hstatus]
  · cases hsu : user.is_superuser
    · simp [hsu, hrole, htenant, hstatus]
    · simp [hsu, hstatus]

/-- Witness for C9: a superuser resolving an already approved change
receives InvalidState from both approve and reject. -/
theorem pending_change_resolve_requires_pending_witness :
    pending_change_approve sampleSuperuser
        { tenant := 1, action := "update", status := "approved",
          reviewed_by := none, reviewed_at := none, review_notes := "" }
        true 3 = .err .InvalidState ∧
    pending_change_reject sampleSuperuser
        { tenant := 1, action := "update", status := "approved",
          reviewed_by := none, reviewed_at := none, review_notes := "" }
        "no" 3 = .err .InvalidState :=
  pending_change_resolve_requires_pending sampleSuperuser
    { tenant := 1, action := "update", status := "approved",
      reviewed_by := none, reviewed_at := none, review_notes := "" }
    true "no" 3 (Or.inl rfl) (by decide)

/-- Counterexample to C6: a draft project with no current stage
satisfies the claimed precondition (approval status draft) and its
actor requirement (can_submit_project grants the draft-with-no-stage
bypass to an ordinary user), yet the submit handler fails with
InvalidState instead of succeeding, because the handler requires a
current stage unconditionally and never consults can_submit_project. -/
theorem submit_draft_no_stage_counterexample :
    draftNoStageProject.approval_status = "draft" ∧
    draftNoStageProject.current_stage = none ∧
    can_submit_project [] ordinaryUser draftNoStageProject = true ∧
    submit [] ordinaryUser draftNoStageProject = .err .InvalidState := by
  decide

/-- C6 as amended: submit succeeds and sets the approval status to
pending exactly on the projects that carry a current stage and for
actors passing the workflow permission check for (stage, submit); a
project without a current stage — draft or not — is rejected with
InvalidState. -/
theorem submit_requires_current_stage
    (rules : List WorkflowRule) (user : User) (project : Project) :
    (project.current_stage = none →
      submit rules user project = .err .InvalidState) ∧
    (∀ stage, project.current_stage = some stage →
      check_workflow_permission rules user stage "submit" = true →
      submit rules user project =
        .ok { project with approval_status := "pending" }
          { action := "submit"
            description := "Submitted project for approval"
            changes_before := []
            changes_after := [] }) := by
  constructor
  · intro hnone
    unfold submit
    rw [hnone]
  · intro stage hstage hperm
    unfold submit
    rw [hstage]
    simp [hperm]

/-- Witness for C6 as amended: a draft project with no stage is
rejected with InvalidState, and a superuser submitting a project with a
stage succeeds and it becomes pending. -/
theorem submit_requires_current_stage_witness :
    submit [] ordinaryUser draftNoStageProject = .err .InvalidState ∧
    submit [] sampleSuperuser sampleProject =
      .ok { sampleProject with approval_status := "pending" }
        { action := "submit"
          description := "Submitted project for approval"
          changes_before := []
          changes_after := [] } :=
  ⟨(submit_requires_current_stage [] ordinaryUser draftNoStageProject).1 rfl,
   (submit_requires_current_stage [] sampleSuperuser sampleProject).2
      sampleStage rfl (by decide)⟩

/-- Resolving a stage code against the catalog finds exactly the active
stage bearing that code when stage codes are unique, as the database
uniqueness constraint on WorkflowStage.code guarantees. -/
lemma find?_stage_of_unique (stages : List WorkflowStage) (code : String)
    (s : WorkflowStage) (hs : s ∈ stages) (hc : s.code = code)
    (ha : s.is_active = true)
    (huniq : ∀ t ∈ stages, t.code = code → t = s) :
    stages.find? (fun t => decide (t.code = code) && t.is_active) = some s := by
  induction stages with
  | nil => simp at hs
  | cons a l ih =>
    by_cases hac : a.code = code
    · have haeq : a = s := huniq a (List.mem_cons_self a l) hac
      subst haeq
      have hpred : (decide (a.code = code) && a.is_active) = true := by
        simp [hac, ha]
      simp [List.find?, hpred]
    · have hpred : (decide (a.code = code) && a.is_active) = false := by
        simp [hac]
      have hs' : s ∈ l := by
        rcases List.mem_cons.mp hs with h | h
        · exact absurd (h ▸ hc) hac
        · exact h
      have huniq' : ∀ t ∈ l, t.code = code → t = s := fun t ht =>
        huniq t (List.mem_cons_of_mem a ht)
      simp [List.find?, hpred]
      exact ih hs' huniq'

/-- C8: for a staff actor and a provided, non-empty stage code, when no
active stage of the catalog bears that code the handler answers
NotFound and the project is untouched (an error result carries no
mutated project); when an active stage bears the code (codes being
unique in the catalog), the project moves to that stage and its
approval status is reset to draft. -/
theorem move_to_stage_resolves_code
    (stages : List WorkflowStage) (user : User) (project : Project)
    (code : String) (hstaff : user.is_staff = true) (hcode : code ≠ "") :
    ((∀ s ∈ stages, ¬(s.code = code ∧ s.is_active = true)) →
      move_to_stage stages user project (some code) = .err .NotFound) ∧
    (∀ s ∈ stages, s.code = code → s.is_active = true →
      (∀ t ∈ stages, t.code = code → t = s) →
      move_to_stage stages user project (some code) =
        .ok { project with
                current_stage := some s
                approval_status := "draft" }
          { action := "edit"
            description :=
              "Moved project from " ++
                (match project.current_stage with
                 | some old => old.code
                 | none => "None") ++
                " to " ++ s.code
            changes_before :=
              [("stage",
                (match project.current_stage with
                 | some old => some old.code
                 | none => none))]
            changes_after := [("stage", some s.code)] }) := by
  constructor
  · intro habsent
    unfold move_to_stage
    have hfind : stages.find? (fun t => decide (t.code = code) && t.is_active)
        = none := by
      rw [List.find?_eq_none]
      intro t ht
      simp only [Bool.and_eq_true, decide_eq_true_eq, not_and]
      intro h1 h2
      exact habsent t ht ⟨h1, h2⟩
    simp [hcode, hstaff, hfind]
  · intro s hs hc ha huniq
    unfold move_to_stage
    have hfind := find?_stage_of_unique stages code s hs hc ha huniq
    simp [hcode, hstaff, hfind]

/-- Witness for C8: a staff superuser asking for the code of an
inactive stage gets NotFound, and asking for the code of the active
stage moves the project there and resets it to draft. -/
theorem move_to_stage_resolves_code_witness :
    move_to_stage [inactiveStage] sampleSuperuser deleteRequestedProject
        (some "stage_9") = .err .NotFound ∧
    move_to_stage [sampleStage] sampleSuperuser deleteRequestedProject
        (some "stage_1") =
      .ok { deleteRequestedProject with
              current_stage := some sampleStage
              approval_status := "draft" }
        { action := "edit"
          description := "Moved project from stage_1 to stage_1"
          changes_before := [("stage", some "stage_1")]
          changes_after := [("stage", some "stage_1")] } :=
  ⟨(move_to_stage_resolves_code [inactiveStage] sampleSuperuser
      deleteRequestedProject "stage_9" rfl (by decide)).1 (by decide),
   (move_to_stage_resolves_code [sampleStage] sampleSuperuser
      deleteRequestedProject "stage_1" rfl (by decide)).2
      sampleStage (by decide) (by decide) rfl (by decide)⟩

/-- Sample contract with zero total value. -/
def zeroValueContract : Contract :=
  { total_project_value := 0, contract_date := some 0 }

/-- Sample contract worth 100000. -/
def contract100k : Contract :=
  { total_project_value := 100000, contract_date := some 0 }

/-- Sample single payment of 5000. -/
def singlePayment : Payment :=
  { amount := 5000, date := 0, created_at := 0, description := "advance" }

/-- Sample recent ledger totalling 96000 against contract100k, ordered
by (date, created_at). -/
def ledger96k : List Payment :=
  [ { amount := 40000, date := 0, created_at := 0, description := "" },
    { amount := 56000, date := 10, created_at := 1, description := "" } ]

/-- Counterexample to C2: with a contract whose total value is zero,
one payment of 5000 makes the paid total reach the total value, yet the
derived status is execution_started, not completed, because a
non-positive total disables the percentage rules. -/
theorem paid_ge_value_not_completed_counterexample :
    zeroValueContract.total_project_value ≤ totalPaid [singlePayment] ∧
    calculate_status_from_payments (some zeroValueContract)
      [singlePayment] 10 = "execution_started" ∧
    calculate_status_from_payments (some zeroValueContract)
      [singlePayment] 10 ≠ "completed" := by
  have hval : calculate_status_from_payments (some zeroValueContract)
      [singlePayment] 10 = "execution_started" := by
    norm_num [calculate_status_from_payments, contractValue,
      completionPercentage, totalPaid, lastPaymentStale, zeroValueContract,
      singlePayment]
  exact ⟨by norm_num [zeroValueContract, totalPaid, singlePayment], hval,
    by rw [hval]; decide⟩

/-- C2 as amended: for every ledger with at least one payment and a
contract with positive total value, a paid total at or above the total
value derives the status completed, regardless of the number of
payments or of how recent the last payment is. -/
theorem paid_ge_value_completed
    (c : Contract) (payments : List Payment) (today : Int)
    (hne : payments ≠ [])
    (hpos : 0 < c.total_project_value)
    (hge : c.total_project_value ≤ totalPaid payments) :
    calculate_status_from_payments (some c) payments today = "completed" := by
  unfold calculate_status_from_payments
  have hlen : ¬(payments.length = 0) := by
    simpa [List.length_eq_zero] using hne
  have hone : (1 : Rat) ≤ totalPaid payments / c.total_project_value :=
    (one_le_div hpos).mpr hge
  have hcompl : (100 : Rat) ≤
      totalPaid payments / c.total_project_value * 100 := by
    calc (100 : Rat) = 1 * 100 := by norm_num
    _ ≤ totalPaid payments / c.total_project_value * 100 :=
        mul_le_mul_of_nonneg_right hone (by norm_num)
  simp [hlen, contractValue, completionPercentage, hpos, hcompl]

/-- Witness for C2 as amended: an old two-payment ledger totalling
exactly the 100000 contract value derives completed. -/
theorem paid_ge_value_completed_witness :
    calculate_status_from_payments (some contract100k)
      [ { amount := 40000, date := 0, created_at := 0, description := "" },
        { amount := 60000, date := 10, created_at := 1, description := "" } ]
      1000 = "completed" :=
  paid_ge_value_completed contract100k
    [ { amount := 40000, date := 0, created_at := 0, description := "" },
      { amount := 60000, date := 10, created_at := 1, description := "" } ]
    1000 (by simp) (by norm_num [contract100k])
    (by norm_num [contract100k, totalPaid])

/-- Counterexample to C3: against the 100000 contract, the recent
ledger totalling 96000 leaves less than 5 percent remaining, yet the
derived status is not pending_financial_closure (it is handover_stage,
since 96 percent completion already satisfies the earlier 91 percent
rule). -/
theorem pending_financial_closure_counterexample :
    totalPaid ledger96k = 96000 ∧
    (contract100k.total_project_value - totalPaid ledger96k) /
        contract100k.total_project_value * 100 < 5 ∧
    calculate_status_from_payments (some contract100k) ledger96k 20
      ≠ "pending_financial_closure" := by
  have hval : calculate_status_from_payments (some contract100k) ledger96k 20
      = "handover_stage" := by
    norm_num [calculate_status_from_payments, contractValue,
      completionPercentage, totalPaid, lastPaymentStale, contract100k,
      ledger96k]
  exact ⟨by norm_num [totalPaid, ledger96k],
    by norm_num [totalPaid, ledger96k, contract100k],
    by rw [hval]; decide⟩

/-- The guard of the pending_financial_closure branch never holds: a
remaining share below 5 percent of a positive total forces the
completion percentage above 95, contradicting the guard requirement
that it stay below 91. -/
lemma pending_guard_false (b a : Rat) :
    (decide (0 < b) && decide ((b - a) / b * 100 < 5) &&
      decide (completionPercentage b a < 91)) = false := by
  by_cases hpos : 0 < b
  · by_cases hrem : (b - a) / b * 100 < 5
    · have h95 : ¬(completionPercentage b a < 91) := by
        unfold completionPercentage
        rw [if_pos (by simpa using hpos)]
        intro hlt
        have hrem' : (b - a) * 100 < 5 * b := by
          have heq : (b - a) / b * 100 = (b - a) * 100 / b := by ring
          rw [heq] at hrem
          exact (div_lt_iff₀ hpos).mp hrem |>.trans_le (by linarith)
        have hlt' : a * 100 < 91 * b := by
          have heq : a / b * 100 = a * 100 / b := by ring
          rw [heq] at hlt
          exact (div_lt_iff₀ hpos).mp hlt |>.trans_le (by linarith)
        linarith
      simp [h95]
    · simp [hrem]
  · simp [hpos]

/-- Strings differ from a target whenever both branches of a
conditional do. -/
lemma ite_string_ne {c : Bool} {x y t : String} (hx : x ≠ t) (hy : y ≠ t) :
    (if c = true then x else y) ≠ t := by
  cases c <;> simp [hx, hy]

/-- C3 as amended: the 96000-of-100000 recent ledger derives
handover_stage, and no ledger at all can derive
pending_financial_closure: the guard of that branch demands both less
than 5 percent remaining — hence more than 95 percent completion — and
less than 91 percent completion, which is contradictory, so the branch
is dead code. -/
theorem pending_financial_closure_unreachable :
    calculate_status_from_payments (some contract100k) ledger96k 20
      = "handover_stage" ∧
    ∀ (contract : Option Contract) (payments : List Payment) (today : Int),
      calculate_status_from_payments contract payments today
        ≠ "pending_financial_closure" := by
  constructor
  · norm_num [calculate_status_from_payments, contractValue,
      completionPercentage, totalPaid, lastPaymentStale, contract100k,
      ledger96k]
  · intro contract payments today
    unfold calculate_status_from_payments
    simp only [pending_guard_false, Bool.false_eq_true, if_false]
    exact ite_string_ne (by decide)
      (ite_string_ne (by decide)
        (ite_string_ne (by decide)
          (ite_string_ne (by decide)
            (ite_string_ne (by decide)
              (ite_string_ne (by decide) (by decide))))))
